import Mathlib

/-!
Verification of the heart-disease risk-assessment repository's severity
classification pipeline and frontend utilities.

Embedded from the repository sources:
* `group_severity` — the grouping function from the training script, quoted
  verbatim in `DOCUMENTATION_UPDATES_3CLASS.md` (Grouping Logic section).
* `formatChestPainType`, `formatECGResult`, `formatSTSlope`,
  `formatThalassemia` — display formatters from
  `frontend/src/utils/validation.ts`; JavaScript array indexing and the
  `||` falsy fallback are modelled explicitly.
* `handleSendMessage` — the optimistic-update send handler from
  `frontend/src/pages/Chat.tsx`, modelled as a pure state transformer with
  the request outcome passed in.

The Python inference backend (Flask `app.py`, preprocessing artifacts,
classifier) is not part of the source tree available here; those components
are modelled from the specification, and each such definition carries a
doc comment starting with "Modelled from the spec:".
-/

/-! ## Severity grouping (from the training script, quoted in the docs) -/

/-- The `group_severity` function of `notebooks/three_class_grouping.py`,
quoted verbatim in `DOCUMENTATION_UPDATES_3CLASS.md`:
`if severity == 0: return 0; elif severity in [1, 2]: return 1; else: return 2`. -/
def group_severity (severity : Int) : Int :=
  if severity = 0 then 0
  else if severity = 1 ∨ severity = 2 then 1
  else 2

/-- The spec's claimed many-to-one map {0→0, 1→1, 2→1, 3→2, 4→2},
written down independently of the source for comparison. -/
def groupMapSpec (severity : Int) : Int :=
  if severity = 0 then 0
  else if severity = 1 then 1
  else if severity = 2 then 1
  else if severity = 3 then 2
  else 2

/-! ## Display formatters (frontend/src/utils/validation.ts) -/

/-- JavaScript array indexing `xs[i]` on a string array: out-of-range or
negative indices yield `undefined`, modelled as `none`. -/
def jsStringIndex (xs : List String) (i : Int) : Option String :=
  if 0 ≤ i then xs.get? i.toNat else none

/-- The JavaScript `v || d` fallback: `undefined` and the empty string are
falsy, so both fall through to the default. -/
def jsFalsyOr (v : Option String) (d : String) : String :=
  match v with
  | none => d
  | some s => if s = "" then d else s

/-- `formatChestPainType` from `validation.ts`: `types[type] || 'Unknown'`. -/
def formatChestPainType (t : Int) : String :=
  jsFalsyOr (jsStringIndex ["Typical angina", "Atypical angina",
    "Non-anginal pain", "Asymptomatic"] t) "Unknown"

/-- `formatECGResult` from `validation.ts`: `results[result] || 'Unknown'`. -/
def formatECGResult (result : Int) : String :=
  jsFalsyOr (jsStringIndex ["Normal", "ST-T wave abnormality",
    "Left ventricular hypertrophy"] result) "Unknown"

/-- `formatSTSlope` from `validation.ts`: `slopes[slope] || 'Unknown'`. -/
def formatSTSlope (slope : Int) : String :=
  jsFalsyOr (jsStringIndex ["Upsloping", "Flat", "Downsloping"] slope) "Unknown"

/-- `formatThalassemia` from `validation.ts`: the table is
`['', 'Normal', 'Fixed defect', 'Reversible defect']`, so slot 0 holds the
empty string. -/
def formatThalassemia (thal : Int) : String :=
  jsFalsyOr (jsStringIndex ["", "Normal", "Fixed defect",
    "Reversible defect"] thal) "Unknown"

/-! ## SeverityClassifier and ResponseComposer (modelled from the spec) -/

/-- A probability distribution over the 3 severity classes, with exact
rational arithmetic standing in for floating point. -/
structure Dist3 where
  p0 : ℚ
  p1 : ℚ
  p2 : ℚ
  deriving DecidableEq

/-- Modelled from the spec: the direct 3-class strategy.  The fitted
multi-class model (an artifact file, not in the source tree) is abstracted
as a map from the scaled feature vector to three raw per-class scores;
`classify` normalizes the scores to a probability distribution, as a
softmax-style predict-proba does. -/
def classifyDirect (model : List ℚ → Fin 3 → ℚ) (v : List ℚ) : Dist3 :=
  let s0 := model v 0
  let s1 := model v 1
  let s2 := model v 2
  let t := s0 + s1 + s2
  ⟨s0 / t, s1 / t, s2 / t⟩

/-- The probability mass the distribution assigns to a class index. -/
def probAt (d : Dist3) : Nat → ℚ
  | 0 => d.p0
  | 1 => d.p1
  | 2 => d.p2
  | _ => 0

/-- Modelled from the spec: the predicted class is the argmax over the three
class probabilities, ties broken toward the lower (less severe) index. -/
def predictedClass (d : Dist3) : Nat :=
  if d.p1 ≤ d.p0 ∧ d.p2 ≤ d.p0 then 0
  else if d.p2 ≤ d.p1 then 1
  else 2

/-- Modelled from the spec: the fixed 3-entry severity label table
(`get_severity_config_3class` of the backend API). -/
def severityLabel : Nat → String
  | 0 => "No Disease"
  | 1 => "Mild-Moderate"
  | _ => "Severe-Critical"

/-- Modelled from the spec: the fixed 3-entry severity color table
(`get_severity_config_3class` of the backend API). -/
def severityColor : Nat → String
  | 0 => "#4CAF50"
  | 1 => "#FF9800"
  | _ => "#E91E63"

/-- Modelled from the spec: the fixed per-class action-item templates
(`get_action_items_3class` of the backend API). -/
def actionItems : Nat → List String
  | 0 => ["Maintain a healthy lifestyle", "Continue regular checkups"]
  | 1 => ["Schedule a cardiology consultation", "Make lifestyle changes"]
  | _ => ["Seek urgent medical evaluation", "Contact a cardiologist now"]

/-- The standard caution appended when confidence is below the threshold. -/
def lowConfidenceMsg : String :=
  "Confidence below threshold - consult a professional"

/-- The public prediction contract composed by the ResponseComposer. -/
structure PredictionResult where
  prediction : Nat
  confidence : ℚ
  probabilities : Dist3
  risk_category : String
  risk_color : String
  action_items : List String
  deriving DecidableEq

/-- Modelled from the spec: `compose(probabilities) → PredictionResult`.
Confidence is the probability mass of the argmax class; the argmax class is
mapped through the fixed 3-entry table; when confidence is below the
low-confidence threshold a standard consult-a-professional action item is
appended.  A total function: low confidence is never an error. -/
def compose (lowConfThreshold : ℚ) (d : Dist3) : PredictionResult :=
  let c := predictedClass d
  let conf := probAt d c
  { prediction := c
    confidence := conf
    probabilities := d
    risk_category := severityLabel c
    risk_color := severityColor c
    action_items := actionItems c ++
      (if conf < lowConfThreshold then [lowConfidenceMsg] else []) }

/-- Outcome of the hierarchical strategy: predicted class and confidence. -/
structure HierOutcome where
  prediction : Nat
  confidence : ℚ
  deriving DecidableEq

/-- Modelled from the spec: the hierarchical strategy.  A binary
disease/no-disease model runs first; if its no-disease probability exceeds
the persisted threshold the result short-circuits to class 0 with that
probability as confidence; otherwise the second-stage multi-class model
resolves between Mild-Moderate (1) and Severe-Critical (2). -/
def classifyHierarchical (binaryNoDisease : List ℚ → ℚ) (threshold : ℚ)
    (secondStage : List ℚ → ℚ × ℚ) (v : List ℚ) : HierOutcome :=
  let b := binaryNoDisease v
  if threshold < b then
    { prediction := 0, confidence := b }
  else
    let q := secondStage v
    if q.2 ≤ q.1 then { prediction := 1, confidence := q.1 }
    else { prediction := 2, confidence := q.2 }

/-! ## FeatureEncoder, MissingValueResolver and inference pipeline
(modelled from the spec and the API field tables) -/

/-- A raw clinical record as received by the pipeline: the 5 required
fields are always present; the 8 optional fields may be absent. -/
structure RawRecord where
  age : ℚ
  sex : String
  cp : String
  fbs : Bool
  exang : Bool
  trestbps : Option ℚ
  chol : Option ℚ
  restecg : Option String
  thalch : Option ℚ
  oldpeak : Option ℚ
  slope : Option String
  ca : Option ℚ
  thal : Option String

/-- Modelled from the spec: label encoding of `sex` over the documented
vocabulary {"Male", "Female"}. -/
def encodeSex (s : String) : Option ℚ :=
  if s = "Male" then some 1
  else if s = "Female" then some 0
  else none

/-- Modelled from the spec: label encoding of chest-pain type over the
documented vocabulary. -/
def encodeCp (s : String) : Option ℚ :=
  if s = "typical angina" then some 0
  else if s = "atypical angina" then some 1
  else if s = "non-anginal" then some 2
  else if s = "asymptomatic" then some 3
  else none

/-- Modelled from the spec: label encoding of the resting ECG result over
the documented vocabulary. -/
def encodeRestecg (s : String) : Option ℚ :=
  if s = "normal" then some 0
  else if s = "st-t abnormality" then some 1
  else if s = "lv hypertrophy" then some 2
  else none

/-- Modelled from the spec: label encoding of the ST slope over the
documented vocabulary. -/
def encodeSlope (s : String) : Option ℚ :=
  if s = "upsloping" then some 0
  else if s = "flat" then some 1
  else if s = "downsloping" then some 2
  else none

/-- Modelled from the spec: label encoding of the thalassemia result over
the documented vocabulary. -/
def encodeThal (s : String) : Option ℚ :=
  if s = "normal" then some 1
  else if s = "fixed defect" then some 2
  else if s = "reversable defect" then some 3
  else none

/-- Client-input errors raised before the classifier stages. -/
inductive PipelineError where
  | invalidCategory (field : String)
  deriving DecidableEq

/-- Encoding of an optional categorical field: absence is not an error;
a present value outside the vocabulary raises `InvalidCategory` naming
the field. -/
def encodeOptCat (field : String) (enc : String → Option ℚ) :
    Option String → Except PipelineError (Option ℚ)
  | none => .ok none
  | some s =>
    match enc s with
    | some c => .ok (some c)
    | none => .error (.invalidCategory field)

/-- The record after encoding: categorical strings replaced by their
numeric codes, optional fields still optional. -/
structure EncodedRecord where
  age : ℚ
  sex : ℚ
  cp : ℚ
  fbs : ℚ
  exang : ℚ
  trestbps : Option ℚ
  chol : Option ℚ
  restecg : Option ℚ
  thalch : Option ℚ
  oldpeak : Option ℚ
  slope : Option ℚ
  ca : Option ℚ
  thal : Option ℚ

/-- Modelled from the spec: `encode(record) → partial numeric vector`.
Maps each categorical field through its fixed vocabulary, failing with
`InvalidCategory` (naming the field) on any value outside it; numeric
fields pass through. -/
def encode (r : RawRecord) : Except PipelineError EncodedRecord :=
  match encodeSex r.sex with
  | none => .error (.invalidCategory "sex")
  | some sexC =>
    match encodeCp r.cp with
    | none => .error (.invalidCategory "cp")
    | some cpC =>
      match encodeOptCat "restecg" encodeRestecg r.restecg with
      | .error e => .error e
      | .ok restecgC =>
        match encodeOptCat "slope" encodeSlope r.slope with
        | .error e => .error e
        | .ok slopeC =>
          match encodeOptCat "thal" encodeThal r.thal with
          | .error e => .error e
          | .ok thalC =>
            .ok { age := r.age, sex := sexC, cp := cpC
                  fbs := if r.fbs then 1 else 0
                  exang := if r.exang then 1 else 0
                  trestbps := r.trestbps, chol := r.chol
                  restecg := restecgC, thalch := r.thalch
                  oldpeak := r.oldpeak, slope := slopeC
                  ca := r.ca, thal := thalC }

/-- The per-field missingness indicators tracked for the 8 optional
fields. -/
structure Flags where
  trestbps : Bool
  chol : Bool
  restecg : Bool
  thalch : Bool
  oldpeak : Bool
  slope : Bool
  ca : Bool
  thal : Bool
  deriving DecidableEq

/-- The missingness indicators of an encoded record: one flag per optional
field, set exactly when the field is absent. -/
def missingFlags (e : EncodedRecord) : Flags :=
  { trestbps := e.trestbps.isNone, chol := e.chol.isNone
    restecg := e.restecg.isNone, thalch := e.thalch.isNone
    oldpeak := e.oldpeak.isNone, slope := e.slope.isNone
    ca := e.ca.isNone, thal := e.thal.isNone }

/-- The missingness pattern of a raw record, stated directly on the input
for comparison with the flags the pipeline computes. -/
def recordFlags (r : RawRecord) : Flags :=
  { trestbps := r.trestbps.isNone, chol := r.chol.isNone
    restecg := r.restecg.isNone, thalch := r.thalch.isNone
    oldpeak := r.oldpeak.isNone, slope := r.slope.isNone
    ca := r.ca.isNone, thal := r.thal.isNone }

/-- Modelled from the spec: the MissingValueResolver.  The persisted
imputation model (KNN for low-missingness fields, stored fallback
constants for high-missingness fields) is an artifact file, abstracted
here as a per-field imputed value; resolution is total on encoded
records. -/
def resolve (imputer : String → ℚ) (e : EncodedRecord) : List ℚ :=
  [e.age, e.sex, e.cp, e.fbs, e.exang,
   e.trestbps.getD (imputer "trestbps"),
   e.chol.getD (imputer "chol"),
   e.restecg.getD (imputer "restecg"),
   e.thalch.getD (imputer "thalch"),
   e.oldpeak.getD (imputer "oldpeak"),
   e.slope.getD (imputer "slope"),
   e.ca.getD (imputer "ca"),
   e.thal.getD (imputer "thal")]

/-- The complete feature vector fed to the classifier: resolved base
features followed by the missingness indicators as 0/1 features. -/
def featureVector (resolved : List ℚ) (flags : Flags) : List ℚ :=
  resolved ++ [if flags.trestbps then 1 else 0, if flags.chol then 1 else 0,
    if flags.restecg then 1 else 0, if flags.thalch then 1 else 0,
    if flags.oldpeak then 1 else 0, if flags.slope then 1 else 0,
    if flags.ca then 1 else 0, if flags.thal then 1 else 0]

/-- Modelled from the spec: the full inference pipeline — encode, resolve
(with missingness indicators), classify, compose.  Client-input errors
short-circuit before the classifier; nothing else fails. -/
def pipeline (imputer : String → ℚ) (model : List ℚ → Fin 3 → ℚ)
    (lowConfThreshold : ℚ) (r : RawRecord) :
    Except PipelineError PredictionResult :=
  match encode r with
  | .error e => .error e
  | .ok enc =>
    .ok (compose lowConfThreshold
      (classifyDirect model (featureVector (resolve imputer enc) (missingFlags enc))))

/-- A present categorical value of the record that falls outside the named
field's vocabulary. -/
def invalidCatIn (r : RawRecord) (field : String) : Prop :=
  (field = "sex" ∧ encodeSex r.sex = none) ∨
  (field = "cp" ∧ encodeCp r.cp = none) ∨
  (field = "restecg" ∧ ∃ s, r.restecg = some s ∧ encodeRestecg s = none) ∨
  (field = "slope" ∧ ∃ s, r.slope = some s ∧ encodeSlope s = none) ∨
  (field = "thal" ∧ ∃ s, r.thal = some s ∧ encodeThal s = none)

/-- Validity of an optional categorical field: absent, or in vocabulary. -/
def validOptCat (enc : String → Option ℚ) : Option String → Bool
  | none => true
  | some s => (enc s).isSome

/-- All categorical fields of the record hold vocabulary values (absent
optional fields are fine). -/
def validCats (r : RawRecord) : Prop :=
  (encodeSex r.sex).isSome = true ∧ (encodeCp r.cp).isSome = true ∧
  validOptCat encodeRestecg r.restecg = true ∧
  validOptCat encodeSlope r.slope = true ∧
  validOptCat encodeThal r.thal = true

instance (r : RawRecord) : Decidable (validCats r) := by
  unfold validCats; infer_instance

/-- A valid optional categorical encodes without error, preserving its
missingness. -/
lemma encodeOptCat_ok (field : String) (enc : String → Option ℚ)
    (v : Option String) (h : validOptCat enc v = true) :
    ∃ o : Option ℚ, encodeOptCat field enc v = .ok o ∧ o.isNone = v.isNone := by
  cases v with
  | none => exact ⟨none, rfl, rfl⟩
  | some s =>
    rcases Option.isSome_iff_exists.mp (by simpa [validOptCat] using h) with ⟨c, hc⟩
    exact ⟨some c, by simp [encodeOptCat, hc], rfl⟩

/-- Normalizing three positive scores yields a distribution: each
coordinate lies in [0,1] and the coordinates sum to exactly 1. -/
lemma classifyDirect_wellformed (model : List ℚ → Fin 3 → ℚ) (v : List ℚ)
    (hpos : ∀ i : Fin 3, 0 < model v i) :
    (0 ≤ (classifyDirect model v).p0 ∧ (classifyDirect model v).p0 ≤ 1) ∧
    (0 ≤ (classifyDirect model v).p1 ∧ (classifyDirect model v).p1 ≤ 1) ∧
    (0 ≤ (classifyDirect model v).p2 ∧ (classifyDirect model v).p2 ≤ 1) ∧
    (classifyDirect model v).p0 + (classifyDirect model v).p1 +
      (classifyDirect model v).p2 = 1 := by
  have h0 := hpos 0
  have h1 := hpos 1
  have h2 := hpos 2
  have ht : 0 < model v 0 + model v 1 + model v 2 := by linarith
  have htne : model v 0 + model v 1 + model v 2 ≠ 0 := ne_of_gt ht
  refine ⟨⟨?_, ?_⟩, ⟨?_, ?_⟩, ⟨?_, ?_⟩, ?_⟩
  · exact div_nonneg (le_of_lt h0) (le_of_lt ht)
  · exact (div_le_one ht).mpr (by linarith)
  · exact div_nonneg (le_of_lt h1) (le_of_lt ht)
  · exact (div_le_one ht).mpr (by linarith)
  · exact div_nonneg (le_of_lt h2) (le_of_lt ht)
  · exact (div_le_one ht).mpr (by linarith)
  · show model v 0 / _ + model v 1 / _ + model v 2 / _ = 1
    rw [div_add_div_same, div_add_div_same]
    exact div_self htne

/-! ## Chat send handler (frontend/src/pages/Chat.tsx) -/

/-- A chat message as in `frontend/src/types`. -/
structure ChatMessage where
  id : Nat
  role : String
  content : String
  created_at : String
  references_prediction : Bool
  references_assessment_data : Bool
  deriving DecidableEq

/-- The component state `handleSendMessage` reads and writes: the message
list, the input text, and the loading flag. -/
structure ChatState where
  messages : List ChatMessage
  input : String
  loading : Bool
  deriving DecidableEq

/-- JavaScript `String.prototype.trim()`: strips leading and trailing
whitespace. -/
def jsTrim (s : String) : String :=
  String.mk (((s.data.dropWhile Char.isWhitespace).reverse.dropWhile
    Char.isWhitespace).reverse)

/-- `handleSendMessage` from `Chat.tsx` as a pure state transformer.  The
request outcome is passed in: `some response` for a successful send,
`none` for a failure.  Mirrors the source: bail out when the trimmed input
is empty or a send is in flight; clear the input; optimistically append the
user message; on success replace the optimistic tail with the user message
plus the assistant response; on failure drop the optimistic message
(`prev.slice(0, -1)`); `finally` clears the loading flag. -/
def handleSendMessage (st : ChatState) (tempId : Nat) (nowIso : String)
    (outcome : Option ChatMessage) : ChatState :=
  if jsTrim st.input = "" ∨ st.loading = true then st
  else
    let tempUserMessage : ChatMessage :=
      { id := tempId, role := "user", content := st.input, created_at := nowIso,
        references_prediction := false, references_assessment_data := false }
    let afterOptimistic := st.messages ++ [tempUserMessage]
    match outcome with
    | some response =>
      { messages := afterOptimistic.dropLast ++ [tempUserMessage, response],
        input := "", loading := false }
    | none =>
      { messages := afterOptimistic.dropLast, input := "", loading := false }

/-! ## Theorems -/

/-- C1: the severity grouping applied by the system is the fixed many-to-one
map sending original label 0 to class 0, labels 1 and 2 to class 1, and
labels 3 and 4 to class 2; for every original-scale label in {0,1,2,3,4}
the composed reporting class equals its image under this map. -/
theorem c1_group_severity_matches_spec_map (s : Int)
    (h0 : 0 ≤ s) (h4 : s ≤ 4) : group_severity s = groupMapSpec s := by
  interval_cases s <;> rfl

/-- Witness for C1 at the concrete original-scale label 3. -/
theorem c1_group_severity_witness :
    group_severity 3 = groupMapSpec 3 :=
  c1_group_severity_matches_spec_map 3 (by decide) (by decide)

/-- C9: the display formatters are total: every integer input outside the
function's value table returns "Unknown" (and such Lean functions cannot
throw); in particular `formatThalassemia 0 = "Unknown"` because slot 0 of
the table holds the empty string, which falls through the `||` fallback. -/
theorem c9_formatters_total_unknown :
    (∀ t : Int, t < 0 ∨ 4 ≤ t → formatChestPainType t = "Unknown") ∧
    (∀ r : Int, r < 0 ∨ 3 ≤ r → formatECGResult r = "Unknown") ∧
    (∀ s : Int, s < 0 ∨ 3 ≤ s → formatSTSlope s = "Unknown") ∧
    (∀ t : Int, t < 1 ∨ 4 ≤ t → formatThalassemia t = "Unknown") ∧
    formatThalassemia 0 = "Unknown" := by
  have hidx : ∀ (xs : List String) (i : Int), i < 0 ∨ (xs.length : Int) ≤ i →
      jsStringIndex xs i = none := by
    intro xs i hi
    rcases hi with hi | hi
    · simp [jsStringIndex, not_le.mpr hi]
    · have h0 : 0 ≤ i := le_trans (by positivity) hi
      have hlen : xs.length ≤ i.toNat := by omega
      simp only [jsStringIndex, if_pos h0]
      exact List.get?_eq_none.mpr hlen
  refine ⟨?_, ?_, ?_, ?_, rfl⟩
  · intro t ht
    have : jsStringIndex ["Typical angina", "Atypical angina",
        "Non-anginal pain", "Asymptomatic"] t = none := by
      apply hidx; simpa using ht
    simp [formatChestPainType, this, jsFalsyOr]
  · intro r hr
    have : jsStringIndex ["Normal", "ST-T wave abnormality",
        "Left ventricular hypertrophy"] r = none := by
      apply hidx; simpa using hr
    simp [formatECGResult, this, jsFalsyOr]
  · intro s hs
    have : jsStringIndex ["Upsloping", "Flat", "Downsloping"] s = none := by
      apply hidx; simpa using hs
    simp [formatSTSlope, this, jsFalsyOr]
  · intro t ht
    rcases ht with ht | ht
    · rcases lt_or_eq_of_le (by omega : t ≤ 0) with h | h
      · have : jsStringIndex ["", "Normal", "Fixed defect",
            "Reversible defect"] t = none := hidx _ _ (Or.inl h)
        simp [formatThalassemia, this, jsFalsyOr]
      · subst h; rfl
    · have : jsStringIndex ["", "Normal", "Fixed defect",
          "Reversible defect"] t = none := by
        apply hidx; right; simpa using ht
      simp [formatThalassemia, this, jsFalsyOr]

/-- Witness for C9 at the concrete out-of-table input 7. -/
theorem c9_formatters_witness : formatChestPainType 7 = "Unknown" :=
  c9_formatters_total_unknown.1 7 (Or.inr (by decide))

/-- C2: for every valid (scaled) record vector, `classify` returns a
probability distribution over exactly 3 classes in which each probability
lies in [0,1] and the three sum to exactly 1 (hence within any
floating-point tolerance such as 1e-6). -/
theorem c2_classify_distribution (model : List ℚ → Fin 3 → ℚ) (v : List ℚ)
    (hpos : ∀ i : Fin 3, 0 < model v i) :
    (0 ≤ (classifyDirect model v).p0 ∧ (classifyDirect model v).p0 ≤ 1) ∧
    (0 ≤ (classifyDirect model v).p1 ∧ (classifyDirect model v).p1 ≤ 1) ∧
    (0 ≤ (classifyDirect model v).p2 ∧ (classifyDirect model v).p2 ≤ 1) ∧
    (classifyDirect model v).p0 + (classifyDirect model v).p1 +
      (classifyDirect model v).p2 = 1 :=
  classifyDirect_wellformed model v hpos

/-- Witness for C2 with a concrete positive-score model on a concrete
scaled vector. -/
theorem c2_classify_witness :
    (0 ≤ (classifyDirect (fun _ i => (i : ℚ) + 1) [1, 2]).p0 ∧
      (classifyDirect (fun _ i => (i : ℚ) + 1) [1, 2]).p0 ≤ 1) ∧
    (0 ≤ (classifyDirect (fun _ i => (i : ℚ) + 1) [1, 2]).p1 ∧
      (classifyDirect (fun _ i => (i : ℚ) + 1) [1, 2]).p1 ≤ 1) ∧
    (0 ≤ (classifyDirect (fun _ i => (i : ℚ) + 1) [1, 2]).p2 ∧
      (classifyDirect (fun _ i => (i : ℚ) + 1) [1, 2]).p2 ≤ 1) ∧
    (classifyDirect (fun _ i => (i : ℚ) + 1) [1, 2]).p0 +
      (classifyDirect (fun _ i => (i : ℚ) + 1) [1, 2]).p1 +
      (classifyDirect (fun _ i => (i : ℚ) + 1) [1, 2]).p2 = 1 :=
  c2_classify_distribution (fun _ i => (i : ℚ) + 1) [1, 2]
    (fun i => by fin_cases i <;> norm_num)

/-- C3: for every probability distribution, the predicted class is an index
of maximal probability, and no strictly lower class index attains that
maximum — so on a tie the lower (less severe) index is chosen. -/
theorem c3_predicted_class_argmax_low_tie (d : Dist3) :
    predictedClass d < 3 ∧
    (∀ i, i < 3 → probAt d i ≤ probAt d (predictedClass d)) ∧
    (∀ j, j < predictedClass d → probAt d j < probAt d (predictedClass d)) := by
  by_cases h0 : d.p1 ≤ d.p0 ∧ d.p2 ≤ d.p0
  · rw [predictedClass, if_pos h0]
    refine ⟨by omega, ?_, ?_⟩
    · intro i hi
      interval_cases i
      · simp [probAt]
      · simpa [probAt] using h0.1
      · simpa [probAt] using h0.2
    · intro j hj; omega
  · by_cases h1 : d.p2 ≤ d.p1
    · rw [predictedClass, if_neg h0, if_pos h1]
      have hlt : d.p0 < d.p1 := by
        by_contra hc
        exact h0 ⟨not_lt.mp hc, le_trans h1 (not_lt.mp hc)⟩
      refine ⟨by omega, ?_, ?_⟩
      · intro i hi
        interval_cases i
        · simpa [probAt] using le_of_lt hlt
        · simp [probAt]
        · simpa [probAt] using h1
      · intro j hj
        interval_cases j
        simpa [probAt] using hlt
    · rw [predictedClass, if_neg h0, if_neg h1]
      have h21 : d.p1 < d.p2 := not_le.mp h1
      have h20 : d.p0 < d.p2 := by
        rcases not_and_or.mp h0 with hc | hc
        · exact lt_trans (not_le.mp hc) h21
        · exact not_le.mp hc
      refine ⟨by omega, ?_, ?_⟩
      · intro i hi
        interval_cases i <;> simp [probAt]
        · exact le_of_lt h20
        · exact le_of_lt h21
      · intro j hj
        interval_cases j <;> simp [probAt]
        · exact h20
        · exact h21

/-- Witness for C3 on a concrete tied distribution: the tie between classes
0 and 1 resolves to an index whose probability dominates class 1's. -/
theorem c3_predicted_class_witness :
    probAt ⟨(1 : ℚ) / 2, 1 / 2, 0⟩ 1 ≤
      probAt ⟨(1 : ℚ) / 2, 1 / 2, 0⟩ (predictedClass ⟨(1 : ℚ) / 2, 1 / 2, 0⟩) :=
  (c3_predicted_class_argmax_low_tie ⟨(1 : ℚ) / 2, 1 / 2, 0⟩).2.1 1 (by omega)

/-- C6: under the hierarchical strategy, whenever the binary first stage's
no-disease probability exceeds the persisted threshold, the final class is
0, the confidence equals that binary probability exactly, and the result
does not depend on the second-stage model at all. -/
theorem c6_hierarchical_short_circuit (binaryNoDisease : List ℚ → ℚ)
    (threshold : ℚ) (secondStage : List ℚ → ℚ × ℚ) (v : List ℚ)
    (h : threshold < binaryNoDisease v) :
    (classifyHierarchical binaryNoDisease threshold secondStage v).prediction = 0 ∧
    (classifyHierarchical binaryNoDisease threshold secondStage v).confidence =
      binaryNoDisease v ∧
    ∀ secondStage', classifyHierarchical binaryNoDisease threshold secondStage v =
      classifyHierarchical binaryNoDisease threshold secondStage' v := by
  refine ⟨?_, ?_, ?_⟩ <;> simp [classifyHierarchical, if_pos h]

/-- Witness for C6 with a concrete binary model whose no-disease
probability 9/10 exceeds the persisted threshold 1/2. -/
theorem c6_hierarchical_witness :
    (classifyHierarchical (fun _ => (9 : ℚ) / 10) ((1 : ℚ) / 2)
        (fun _ => ((1 : ℚ) / 2, (1 : ℚ) / 2)) []).prediction = 0 ∧
    (classifyHierarchical (fun _ => (9 : ℚ) / 10) ((1 : ℚ) / 2)
        (fun _ => ((1 : ℚ) / 2, (1 : ℚ) / 2)) []).confidence = (9 : ℚ) / 10 ∧
    ∀ secondStage', classifyHierarchical (fun _ => (9 : ℚ) / 10) ((1 : ℚ) / 2)
        (fun _ => ((1 : ℚ) / 2, (1 : ℚ) / 2)) [] =
      classifyHierarchical (fun _ => (9 : ℚ) / 10) ((1 : ℚ) / 2) secondStage' [] :=
  c6_hierarchical_short_circuit (fun _ => (9 : ℚ) / 10) ((1 : ℚ) / 2)
    (fun _ => ((1 : ℚ) / 2, (1 : ℚ) / 2)) [] (by norm_num)

/-- C7: whenever the composed result's confidence is below the configured
low-confidence threshold, `compose` appends the standard
consult-a-professional action item while leaving the predicted class (the
argmax) unchanged; `compose` is total, so low confidence is a successful
prediction, never an error. -/
theorem c7_low_confidence_annotation (lowConfThreshold : ℚ) (d : Dist3)
    (h : probAt d (predictedClass d) < lowConfThreshold) :
    (compose lowConfThreshold d).action_items =
      actionItems (predictedClass d) ++ [lowConfidenceMsg] ∧
    lowConfidenceMsg ∈ (compose lowConfThreshold d).action_items ∧
    (compose lowConfThreshold d).prediction = predictedClass d := by
  refine ⟨?_, ?_, rfl⟩
  · simp [compose, if_pos h]
  · simp [compose, if_pos h]

/-- Witness for C7 on the uniform distribution with threshold 6/10:
confidence 1/3 is below threshold. -/
theorem c7_low_confidence_witness :
    (compose ((6 : ℚ) / 10) ⟨(1 : ℚ) / 3, 1 / 3, 1 / 3⟩).action_items =
      actionItems (predictedClass ⟨(1 : ℚ) / 3, 1 / 3, 1 / 3⟩) ++ [lowConfidenceMsg] ∧
    lowConfidenceMsg ∈ (compose ((6 : ℚ) / 10) ⟨(1 : ℚ) / 3, 1 / 3, 1 / 3⟩).action_items ∧
    (compose ((6 : ℚ) / 10) ⟨(1 : ℚ) / 3, 1 / 3, 1 / 3⟩).prediction =
      predictedClass ⟨(1 : ℚ) / 3, 1 / 3, 1 / 3⟩ :=
  c7_low_confidence_annotation ((6 : ℚ) / 10) ⟨(1 : ℚ) / 3, 1 / 3, 1 / 3⟩
    (by norm_num [predictedClass, probAt])

/-- C8: the three severity classes map through the fixed 3-entry table —
class 0 to "No Disease" #4CAF50, class 1 to "Mild-Moderate" #FF9800,
class 2 to "Severe-Critical" #E91E63 — and every composed
`PredictionResult` carries exactly the table's label and color for its
predicted class. -/
theorem c8_severity_table_and_risk_color :
    severityLabel 0 = "No Disease" ∧ severityColor 0 = "#4CAF50" ∧
    severityLabel 1 = "Mild-Moderate" ∧ severityColor 1 = "#FF9800" ∧
    severityLabel 2 = "Severe-Critical" ∧ severityColor 2 = "#E91E63" ∧
    ∀ (lowConfThreshold : ℚ) (d : Dist3),
      (compose lowConfThreshold d).risk_color = severityColor (predictedClass d) ∧
      (compose lowConfThreshold d).risk_category = severityLabel (predictedClass d) :=
  ⟨rfl, rfl, rfl, rfl, rfl, rfl, fun _ _ => ⟨rfl, rfl⟩⟩

/-- C4: for every record with all 5 required fields and valid categorical
values, omitting any subset of the 8 optional fields never raises an
error: encoding succeeds, the pipeline produces a full 3-class probability
distribution, and the missingness indicators are set exactly for the
absent (imputed) fields — in particular for `ca` and `thal`. -/
theorem c4_missing_optionals_never_error (imputer : String → ℚ)
    (model : List ℚ → Fin 3 → ℚ) (lowConfThreshold : ℚ) (r : RawRecord)
    (hv : validCats r) (hpos : ∀ (v : List ℚ) (i : Fin 3), 0 < model v i) :
    ∃ enc res, encode r = .ok enc ∧ missingFlags enc = recordFlags r ∧
      (r.ca = none → (missingFlags enc).ca = true) ∧
      (r.thal = none → (missingFlags enc).thal = true) ∧
      pipeline imputer model lowConfThreshold r = .ok res ∧
      (0 ≤ res.probabilities.p0 ∧ res.probabilities.p0 ≤ 1) ∧
      (0 ≤ res.probabilities.p1 ∧ res.probabilities.p1 ≤ 1) ∧
      (0 ≤ res.probabilities.p2 ∧ res.probabilities.p2 ≤ 1) ∧
      res.probabilities.p0 + res.probabilities.p1 + res.probabilities.p2 = 1 := by
  obtain ⟨hsex, hcp, hre, hsl, hth⟩ := hv
  obtain ⟨sexC, hsexC⟩ := Option.isSome_iff_exists.mp hsex
  obtain ⟨cpC, hcpC⟩ := Option.isSome_iff_exists.mp hcp
  obtain ⟨reO, hreO, hreN⟩ := encodeOptCat_ok "restecg" encodeRestecg r.restecg hre
  obtain ⟨slO, hslO, hslN⟩ := encodeOptCat_ok "slope" encodeSlope r.slope hsl
  obtain ⟨thO, hthO, hthN⟩ := encodeOptCat_ok "thal" encodeThal r.thal hth
  set encR : EncodedRecord :=
    { age := r.age, sex := sexC, cp := cpC
      fbs := if r.fbs then 1 else 0
      exang := if r.exang then 1 else 0
      trestbps := r.trestbps, chol := r.chol
      restecg := reO, thalch := r.thalch
      oldpeak := r.oldpeak, slope := slO
      ca := r.ca, thal := thO } with hencR
  have henc : encode r = .ok encR := by
    simp only [hencR, encode, hsexC, hcpC, hreO, hslO, hthO]
  have hw := classifyDirect_wellformed model
    (featureVector (resolve imputer encR) (missingFlags encR)) (fun i => hpos _ i)
  refine ⟨encR, compose lowConfThreshold (classifyDirect model
      (featureVector (resolve imputer encR) (missingFlags encR))),
    henc, ?_, ?_, ?_, ?_, hw.1, hw.2.1, hw.2.2.1, hw.2.2.2⟩
  · simp [hencR, missingFlags, recordFlags, hreN, hslN, hthN]
  · intro hca; simp [hencR, missingFlags, hca]
  · intro hthal
    have hthN2 : thO.isNone = true := by rw [hthN, hthal]; rfl
    simp [hencR, missingFlags, hthN2]
  · simp only [pipeline, henc]

/-- The spec's test scenario record with `ca` and `thal` omitted. -/
def sampleRecordMissingCaThal : RawRecord :=
  { age := 63, sex := "Male", cp := "typical angina", fbs := true
    exang := false, trestbps := some 145, chol := some 233
    restecg := some "lv hypertrophy", thalch := some 150
    oldpeak := some (23 / 10), slope := some "downsloping"
    ca := none, thal := none }

/-- Witness for C4 on the spec's scenario record with `ca` and `thal`
omitted, a concrete imputer and a concrete positive-score model. -/
theorem c4_missing_optionals_witness :
    ∃ enc res, encode sampleRecordMissingCaThal = .ok enc ∧
      missingFlags enc = recordFlags sampleRecordMissingCaThal ∧
      (sampleRecordMissingCaThal.ca = none → (missingFlags enc).ca = true) ∧
      (sampleRecordMissingCaThal.thal = none → (missingFlags enc).thal = true) ∧
      pipeline (fun _ => 0) (fun _ i => (i : ℚ) + 1) ((6 : ℚ) / 10)
        sampleRecordMissingCaThal = .ok res ∧
      (0 ≤ res.probabilities.p0 ∧ res.probabilities.p0 ≤ 1) ∧
      (0 ≤ res.probabilities.p1 ∧ res.probabilities.p1 ≤ 1) ∧
      (0 ≤ res.probabilities.p2 ∧ res.probabilities.p2 ≤ 1) ∧
      res.probabilities.p0 + res.probabilities.p1 + res.probabilities.p2 = 1 :=
  c4_missing_optionals_never_error (fun _ => 0) (fun _ i => (i : ℚ) + 1)
    ((6 : ℚ) / 10) sampleRecordMissingCaThal (by decide)
    (fun v i => by fin_cases i <;> norm_num)

/-- C5: for every record with all required fields present but some
categorical field holding a value outside that field's vocabulary, the
pipeline fails with `InvalidCategory` naming an offending field, and no
prediction is produced. -/
theorem c5_invalid_category_error (imputer : String → ℚ)
    (model : List ℚ → Fin 3 → ℚ) (lowConfThreshold : ℚ) (r : RawRecord)
    (h : ∃ field, invalidCatIn r field) :
    ∃ field, invalidCatIn r field ∧
      pipeline imputer model lowConfThreshold r =
        .error (.invalidCategory field) := by
  cases hsex : encodeSex r.sex with
  | none =>
    exact ⟨"sex", Or.inl ⟨rfl, hsex⟩, by rw [pipeline, encode, hsex]⟩
  | some sexC =>
    cases hcp : encodeCp r.cp with
    | none =>
      exact ⟨"cp", Or.inr (Or.inl ⟨rfl, hcp⟩), by rw [pipeline, encode, hsex, hcp]⟩
    | some cpC =>
      rcases hreOk : encodeOptCat "restecg" encodeRestecg r.restecg with e | reO
      · cases hre : r.restecg with
        | none => rw [hre] at hreOk; exact absurd hreOk (by simp [encodeOptCat])
        | some s =>
          rw [hre] at hreOk
          cases hres : encodeRestecg s with
          | none =>
            refine ⟨"restecg", Or.inr (Or.inr (Or.inl ⟨rfl, s, hre, hres⟩)), ?_⟩
            rw [pipeline, encode, hsex, hcp, hre]
            simp [encodeOptCat, hres]
          | some c => rw [encodeOptCat, hres] at hreOk; exact absurd hreOk (by simp)
      · rcases hslOk : encodeOptCat "slope" encodeSlope r.slope with e | slO
        · cases hsl : r.slope with
          | none => rw [hsl] at hslOk; exact absurd hslOk (by simp [encodeOptCat])
          | some s =>
            rw [hsl] at hslOk
            cases hsls : encodeSlope s with
            | none =>
              refine ⟨"slope", Or.inr (Or.inr (Or.inr (Or.inl ⟨rfl, s, hsl, hsls⟩))), ?_⟩
              rw [pipeline, encode, hsex, hcp, hreOk, hsl]
              simp [encodeOptCat, hsls]
            | some c => rw [encodeOptCat, hsls] at hslOk; exact absurd hslOk (by simp)
        · rcases hthOk : encodeOptCat "thal" encodeThal r.thal with e | thO
          · cases hth : r.thal with
            | none => rw [hth] at hthOk; exact absurd hthOk (by simp [encodeOptCat])
            | some s =>
              rw [hth] at hthOk
              cases hths : encodeThal s with
              | none =>
                refine ⟨"thal",
                  Or.inr (Or.inr (Or.inr (Or.inr ⟨rfl, s, hth, hths⟩))), ?_⟩
                rw [pipeline, encode, hsex, hcp, hreOk, hslOk, hth]
                simp [encodeOptCat, hths]
              | some c => rw [encodeOptCat, hths] at hthOk; exact absurd hthOk (by simp)
          · exfalso
            rcases h with ⟨f, hf⟩
            rcases hf with ⟨_, hbad⟩ | ⟨_, hbad⟩ | ⟨_, s, hs, hbad⟩ |
              ⟨_, s, hs, hbad⟩ | ⟨_, s, hs, hbad⟩
            · rw [hsex] at hbad; exact Option.some_ne_none _ hbad
            · rw [hcp] at hbad; exact Option.some_ne_none _ hbad
            · rw [hs] at hreOk
              rw [encodeOptCat, hbad] at hreOk
              exact Except.noConfusion hreOk
            · rw [hs] at hslOk
              rw [encodeOptCat, hbad] at hslOk
              exact Except.noConfusion hslOk
            · rw [hs] at hthOk
              rw [encodeOptCat, hbad] at hthOk
              exact Except.noConfusion hthOk

/-- The spec's scenario record with the invalid chest-pain type
"unknown". -/
def sampleRecordBadCp : RawRecord :=
  { age := 63, sex := "Male", cp := "unknown", fbs := true
    exang := false, trestbps := some 145, chol := some 233
    restecg := some "lv hypertrophy", thalch := some 150
    oldpeak := some (23 / 10), slope := some "downsloping"
    ca := some 0, thal := some "fixed defect" }

/-- Witness for C5 on a record whose chest-pain type "unknown" is outside
the vocabulary. -/
theorem c5_invalid_category_witness :
    ∃ field, invalidCatIn sampleRecordBadCp field ∧
      pipeline (fun _ => 0) (fun _ i => (i : ℚ) + 1) ((6 : ℚ) / 10)
        sampleRecordBadCp = .error (.invalidCategory field) :=
  c5_invalid_category_error (fun _ => 0) (fun _ i => (i : ℚ) + 1)
    ((6 : ℚ) / 10) sampleRecordBadCp ⟨"cp", Or.inr (Or.inl ⟨rfl, by decide⟩)⟩

/-- C10: if the send request fails, `handleSendMessage` restores the
message list exactly to its contents before the attempt — the
optimistically appended user message is removed and no assistant message
is added — while the cleared input text is not restored. -/
theorem c10_send_failure_restores_messages (st : ChatState) (tempId : Nat)
    (nowIso : String) (hin : jsTrim st.input ≠ "") (hload : st.loading = false) :
    (handleSendMessage st tempId nowIso none).messages = st.messages ∧
    (handleSendMessage st tempId nowIso none).input = "" := by
  have hcond : ¬(jsTrim st.input = "" ∨ st.loading = true) := by
    simp [hin, hload]
  rw [handleSendMessage, if_neg hcond]
  exact ⟨List.dropLast_concat, rfl⟩

/-- Witness for C10 on a concrete one-message state with pending input
"hi". -/
theorem c10_send_failure_witness :
    (handleSendMessage
        { messages := [{ id := 1, role := "assistant", content := "hello"
                         created_at := "t0", references_prediction := false
                         references_assessment_data := false }]
          input := "hi", loading := false } 2 "t1" none).messages =
      [{ id := 1, role := "assistant", content := "hello", created_at := "t0"
         references_prediction := false, references_assessment_data := false }] ∧
    (handleSendMessage
        { messages := [{ id := 1, role := "assistant", content := "hello"
                         created_at := "t0", references_prediction := false
                         references_assessment_data := false }]
          input := "hi", loading := false } 2 "t1" none).input = "" :=
  c10_send_failure_restores_messages _ 2 "t1" (by decide) rfl
